import Mathlib

/-!
Shallow embedding of the two-tier screening pipeline of
`src/agents/screening_agent.py` and the transport layer of
`src/llms/chatgpt.py`.

Modelling conventions:
* Monetary costs (Python `float`) are modelled as exact rationals `ℚ`;
  IEEE-754 rounding of the source is not modelled, so no theorem here may
  rest on exactness or order-independence of float accumulation.
* A provider (`gpt_4o_mini` / `gpt_o3_mini`) interaction is an oracle event:
  either a successful call returning `(text, cost)` or a raised exception.
  The `while True` retry loop of an operation is run against a finite list of
  such events; exhausting the list means the loop is still spinning
  (`stillLooping`), which stands for the non-terminated run.
* `re.search(marker, text, re.IGNORECASE)` for the literal markers
  `XXX`/`YYY`/`ZZZ` is case-insensitive substring search, embedded as
  lowercased-substring containment over the characters.
-/

namespace Screening

/-- Substring containment over character lists: `listContains pat hay` is
true iff `pat` occurs contiguously inside `hay`. -/
def listContains (pat : List Char) : List Char → Bool
  | [] => pat.isEmpty
  | c :: rest => List.isPrefixOf pat (c :: rest) || listContains pat rest

/-- Embedding of `re.search(pat, s, re.IGNORECASE)` for a literal pattern:
lowercase both sides and test substring containment. -/
def searchCI (pat s : String) : Bool :=
  listContains (pat.data.map Char.toLower) (s.data.map Char.toLower)

/-- Embedding of class `ScreeningMetrics` (screening_agent.py, lines 24-51):
per-tier running totals, all starting at zero. -/
structure ScreeningMetrics where
  total_cost : ℚ
  total_disagreements : ℕ
  total_processed : ℕ
deriving DecidableEq

/-- `ScreeningMetrics.__init__`: all counters zero. -/
def ScreeningMetrics.init : ScreeningMetrics := ⟨0, 0, 0⟩

/-- `ScreeningMetrics.add_cost`: `self.total_cost += cost`. -/
def ScreeningMetrics.add_cost (m : ScreeningMetrics) (cost : ℚ) : ScreeningMetrics :=
  { m with total_cost := m.total_cost + cost }

/-- `ScreeningMetrics.add_disagreement`: `self.total_disagreements += 1`. -/
def ScreeningMetrics.add_disagreement (m : ScreeningMetrics) : ScreeningMetrics :=
  { m with total_disagreements := m.total_disagreements + 1 }

/-- `ScreeningMetrics.increment_processed`: `self.total_processed += 1`. -/
def ScreeningMetrics.increment_processed (m : ScreeningMetrics) : ScreeningMetrics :=
  { m with total_processed := m.total_processed + 1 }

/-- The dictionary returned by `ScreeningMetrics.get_summary`. -/
structure MetricsSummary where
  total_cost : ℚ
  total_disagreements : ℕ
  total_processed : ℕ
  avg_cost_per_article : ℚ
deriving DecidableEq

/-- `ScreeningMetrics.get_summary` (lines 44-51):
`avg_cost_per_article = total_cost / max(total_processed, 1)`. -/
def ScreeningMetrics.get_summary (m : ScreeningMetrics) : MetricsSummary :=
  { total_cost := m.total_cost
    total_disagreements := m.total_disagreements
    total_processed := m.total_processed
    avg_cost_per_article := m.total_cost / ((max m.total_processed 1 : ℕ) : ℚ) }

/-- One provider interaction as observed by a tier operation: the call
either returns `(text, cost)` or raises. -/
inductive ProviderEvent where
  | success (text : String) (cost : ℚ)
  | failure
deriving DecidableEq

/-- Outcome of running a tier operation against an oracle of provider
events. `returned` carries the justification text and the extracted value;
`raised` is the re-raised provider exception; `stillLooping` means the
oracle was exhausted with every response malformed, i.e. the `while True`
loop has not terminated yet. -/
inductive OpOutcome (α : Type) where
  | returned (justification : String) (value : α)
  | raised
  | stillLooping
deriving DecidableEq

/-- Result of one tier operation run: outcome, metrics afterwards, and the
number of provider calls consumed. -/
structure OpRun (α : Type) where
  outcome : OpOutcome α
  metrics : ScreeningMetrics
  calls : ℕ
deriving DecidableEq

/-- The shared `while True` body of every tier operation
(screening_agent.py, e.g. lines 86-108): call the provider; on success add
its cost to the metrics, then extract a value from the text; if no marker
matches, loop again on the same prompt; if the provider raises, re-raise
with the metrics as they stand. -/
def runLoop {α : Type} (extract : String → Option α) (m : ScreeningMetrics) :
    List ProviderEvent → OpRun α
  | [] => ⟨OpOutcome.stillLooping, m, 0⟩
  | ProviderEvent.failure :: _ => ⟨OpOutcome.raised, m, 1⟩
  | ProviderEvent.success t c :: rest =>
    match extract t with
    | some v => ⟨OpOutcome.returned t v, m.add_cost c, 1⟩
    | none =>
      let r := runLoop extract (m.add_cost c) rest
      ⟨r.outcome, r.metrics, r.calls + 1⟩

/-- Marker chain of `CitationClassifier.classify` (lines 93-101):
XXX → potentially relevant, else YYY → uncertain, else ZZZ → likely
irrelevant, else malformed. -/
def classifyExtract (justification : String) : Option String :=
  if searchCI "XXX" justification then some "potentially relevant"
  else if searchCI "YYY" justification then some "uncertain"
  else if searchCI "ZZZ" justification then some "likely irrelevant"
  else none

/-- Marker chain of `CitationClassifier.review_classification`
(lines 130-136): XXX → agree, else YYY → dissent, else malformed. -/
def reviewClassificationExtract (evaluation : String) : Option Bool :=
  if searchCI "XXX" evaluation then some true
  else if searchCI "YYY" evaluation then some false
  else none

/-- Marker chain of `CitationClassifier.improve_classification`
(lines 165-173): identical to the chain of `classify`. -/
def improveClassificationExtract (response : String) : Option String :=
  if searchCI "XXX" response then some "potentially relevant"
  else if searchCI "YYY" response then some "uncertain"
  else if searchCI "ZZZ" response then some "likely irrelevant"
  else none

/-- Marker chain of `DetailedScreener.screen` (lines 214-220):
YYY → included, else XXX → excluded, else malformed. -/
def screenExtract (justification : String) : Option String :=
  if searchCI "YYY" justification then some "included"
  else if searchCI "XXX" justification then some "excluded"
  else none

/-- Marker chain of `DetailedScreener.review_screening` (lines 249-255):
XXX → agree, else YYY → dissent, else malformed. -/
def reviewScreeningExtract (evaluation : String) : Option Bool :=
  if searchCI "XXX" evaluation then some true
  else if searchCI "YYY" evaluation then some false
  else none

/-- Marker chain of `DetailedScreener.improve_screening` (lines 284-290):
XXX → excluded, else YYY → included. -/
def improveScreeningExtract (response : String) : Option String :=
  if searchCI "XXX" response then some "excluded"
  else if searchCI "YYY" response then some "included"
  else none

/-- `CitationClassifier.classify` run against a provider oracle, starting
from metrics `m`. The prompt is fixed for the whole loop in the source, so
it does not appear in the state. -/
def CitationClassifier.classify (m : ScreeningMetrics) (events : List ProviderEvent) :
    OpRun String :=
  runLoop classifyExtract m events

/-- `CitationClassifier.review_classification` run against a provider
oracle. Note: the source returns the agreement but never touches
`total_disagreements`. -/
def CitationClassifier.review_classification (m : ScreeningMetrics)
    (events : List ProviderEvent) : OpRun Bool :=
  runLoop reviewClassificationExtract m events

/-- `CitationClassifier.improve_classification` run against a provider oracle. -/
def CitationClassifier.improve_classification (m : ScreeningMetrics)
    (events : List ProviderEvent) : OpRun String :=
  runLoop improveClassificationExtract m events

/-- `DetailedScreener.screen` run against a provider oracle. -/
def DetailedScreener.screen (m : ScreeningMetrics) (events : List ProviderEvent) :
    OpRun String :=
  runLoop screenExtract m events

/-- `DetailedScreener.review_screening` run against a provider oracle. -/
def DetailedScreener.review_screening (m : ScreeningMetrics)
    (events : List ProviderEvent) : OpRun Bool :=
  runLoop reviewScreeningExtract m events

/-- `DetailedScreener.improve_screening` run against a provider oracle. -/
def DetailedScreener.improve_screening (m : ScreeningMetrics)
    (events : List ProviderEvent) : OpRun String :=
  runLoop improveScreeningExtract m events

/-- Pricing entry of one model in the pricing table of `chatgpt.py`: a dict that may
carry a `prompt` and/or a `completion` per-token price. An absent field is
an absent dict key (`pricing.get(key, 0)` then yields 0). -/
structure PriceEntry where
  prompt : Option ℚ
  completion : Option ℚ
deriving DecidableEq

/-- The configured pricing table, keyed by model name
(`self.config.llm.pricing`). -/
abbrev PricingTable := List (String × PriceEntry)

/-- `LLMClient._calculate_cost` (chatgpt.py, lines 35-66):
`pricing = table.get(model_name, {})`; an empty/missing entry means cost 0
(with a warning, not an exception); otherwise
`prompt_tokens * pricing.get("prompt", 0) + completion_tokens * pricing.get("completion", 0)`. -/
def calculate_cost (table : PricingTable) (model : String)
    (prompt_tokens completion_tokens : ℕ) : ℚ :=
  let pricing := (List.lookup model table).getD ⟨none, none⟩
  if pricing.prompt = none ∧ pricing.completion = none then 0
  else (prompt_tokens : ℚ) * pricing.prompt.getD 0
      + (completion_tokens : ℚ) * pricing.completion.getD 0

/-- One transport attempt inside `LLMClient._make_api_call`: the API call
either yields response text with token usage, or throws. -/
inductive AttemptResult where
  | ok (text : String) (prompt_tokens completion_tokens : ℕ)
  | err
deriving DecidableEq

/-- Outcome of `_make_api_call`: a successful `(content, cost)` pair, the
exception re-raised after the last attempt, or `noAttempt` for
`range(max_retries)` being empty (the Python function then falls through). -/
inductive TransportResult where
  | success (text : String) (cost : ℚ)
  | raised
  | noAttempt
deriving DecidableEq

/-- `LLMClient._make_api_call` (chatgpt.py, lines 100-124) run against the
per-attempt outcomes; the list has one entry per loop iteration of
`for attempt in range(max_retries)`, so its length is the retry budget.
Returns the transport outcome and the number of attempts consumed.
On success the cost is computed by `_calculate_cost`; on a failed attempt
that is not the last, the loop sleeps and retries; on the last, it raises. -/
def make_api_call (table : PricingTable) (model : String) :
    List AttemptResult → TransportResult × ℕ
  | [] => (TransportResult.noAttempt, 0)
  | AttemptResult.ok t pt ct :: _ =>
      (TransportResult.success t (calculate_cost table model pt ct), 1)
  | AttemptResult.err :: [] => (TransportResult.raised, 1)
  | AttemptResult.err :: a :: rest =>
      ((make_api_call table model (a :: rest)).1,
       (make_api_call table model (a :: rest)).2 + 1)

/-! ### Basic lemmas about the retry loop and the metrics accumulator -/

lemma runLoop_nil {α : Type} (extract : String → Option α) (m : ScreeningMetrics) :
    runLoop extract m [] = ⟨OpOutcome.stillLooping, m, 0⟩ := rfl

lemma runLoop_failure_cons {α : Type} (extract : String → Option α) (m : ScreeningMetrics)
    (es : List ProviderEvent) :
    runLoop extract m (ProviderEvent.failure :: es) = ⟨OpOutcome.raised, m, 1⟩ := rfl

lemma runLoop_success_some {α : Type} (extract : String → Option α) (m : ScreeningMetrics)
    (t : String) (c : ℚ) (es : List ProviderEvent) (v : α) (h : extract t = some v) :
    runLoop extract m (ProviderEvent.success t c :: es)
      = ⟨OpOutcome.returned t v, m.add_cost c, 1⟩ := by
  simp [runLoop, h]

lemma runLoop_success_none {α : Type} (extract : String → Option α) (m : ScreeningMetrics)
    (t : String) (c : ℚ) (es : List ProviderEvent) (h : extract t = none) :
    runLoop extract m (ProviderEvent.success t c :: es)
      = ⟨(runLoop extract (m.add_cost c) es).outcome,
         (runLoop extract (m.add_cost c) es).metrics,
         (runLoop extract (m.add_cost c) es).calls + 1⟩ := by
  simp [runLoop, h]

lemma add_cost_total_disagreements (m : ScreeningMetrics) (c : ℚ) :
    (m.add_cost c).total_disagreements = m.total_disagreements := rfl

lemma add_cost_total_processed (m : ScreeningMetrics) (c : ℚ) :
    (m.add_cost c).total_processed = m.total_processed := rfl

/-- No tier operation ever touches the disagreement counter: the loop only
calls `add_cost`. -/
lemma runLoop_total_disagreements {α : Type} (extract : String → Option α) :
    ∀ (es : List ProviderEvent) (m : ScreeningMetrics),
      (runLoop extract m es).metrics.total_disagreements = m.total_disagreements := by
  intro es
  induction es with
  | nil => intro m; rfl
  | cons e es ih =>
    intro m
    cases e with
    | failure => rfl
    | success t c =>
      cases h : extract t with
      | some v => simp [runLoop_success_some extract m t c es _ h, ScreeningMetrics.add_cost]
      | none => simp [runLoop_success_none extract m t c es h, ih, ScreeningMetrics.add_cost]

/-- No tier operation ever touches the processed counter. -/
lemma runLoop_total_processed {α : Type} (extract : String → Option α) :
    ∀ (es : List ProviderEvent) (m : ScreeningMetrics),
      (runLoop extract m es).metrics.total_processed = m.total_processed := by
  intro es
  induction es with
  | nil => intro m; rfl
  | cons e es ih =>
    intro m
    cases e with
    | failure => rfl
    | success t c =>
      cases h : extract t with
      | some v => simp [runLoop_success_some extract m t c es _ h, ScreeningMetrics.add_cost]
      | none => simp [runLoop_success_none extract m t c es h, ih, ScreeningMetrics.add_cost]

/-- If every provider call in the oracle has a non-negative cost, running an
operation never decreases the accumulated cost. -/
lemma runLoop_cost_mono {α : Type} (extract : String → Option α) :
    ∀ (es : List ProviderEvent) (m : ScreeningMetrics),
      (∀ t c, ProviderEvent.success t c ∈ es → 0 ≤ c) →
      m.total_cost ≤ (runLoop extract m es).metrics.total_cost := by
  intro es
  induction es with
  | nil => intro m _; exact le_refl _
  | cons e es ih =>
    intro m hnn
    cases e with
    | failure => exact le_refl _
    | success t c =>
      have hc : 0 ≤ c := hnn t c (List.mem_cons_self _ _)
      have hstep : m.total_cost ≤ (m.add_cost c).total_cost := by
        simp [ScreeningMetrics.add_cost]; linarith
      cases h : extract t with
      | some v =>
        simp only [runLoop_success_some extract m t c es _ h]
        exact hstep
      | none =>
        simp only [runLoop_success_none extract m t c es h]
        exact le_trans hstep
          (ih (m.add_cost c) (fun t' c' hm => hnn t' c' (List.mem_cons_of_mem _ hm)))

/-- Folding `add_cost` over a list of call costs adds exactly their sum. -/
lemma foldl_add_cost_total (cs : List ℚ) :
    ∀ m : ScreeningMetrics,
      (cs.foldl ScreeningMetrics.add_cost m).total_cost = m.total_cost + cs.sum := by
  induction cs with
  | nil => intro m; simp
  | cons c cs ih =>
    intro m
    refine (ih (m.add_cost c)).trans ?_
    simp only [ScreeningMetrics.add_cost, List.sum_cons]
    ring

lemma foldl_add_cost_disagreements (pre : List (String × ℚ)) :
    ∀ m : ScreeningMetrics,
      (pre.foldl (fun acc p => acc.add_cost p.2) m).total_disagreements
        = m.total_disagreements := by
  induction pre with
  | nil => intro m; rfl
  | cons p pre ih => intro m; exact (ih (m.add_cost p.2)).trans rfl

lemma foldl_add_cost_processed (pre : List (String × ℚ)) :
    ∀ m : ScreeningMetrics,
      (pre.foldl (fun acc p => acc.add_cost p.2) m).total_processed
        = m.total_processed := by
  induction pre with
  | nil => intro m; rfl
  | cons p pre ih => intro m; exact (ih (m.add_cost p.2)).trans rfl

/-- Running the loop through a prefix of malformed (marker-free) responses
accumulates exactly those costs, consumes exactly those calls, and then
behaves as the loop started on the remaining events. -/
lemma runLoop_malformed_prefix {α : Type} (extract : String → Option α) :
    ∀ (pre : List (String × ℚ)) (m : ScreeningMetrics) (es : List ProviderEvent),
      (∀ p ∈ pre, extract p.1 = none) →
      runLoop extract m (pre.map (fun p => ProviderEvent.success p.1 p.2) ++ es)
        = ⟨(runLoop extract (pre.foldl (fun acc p => acc.add_cost p.2) m) es).outcome,
           (runLoop extract (pre.foldl (fun acc p => acc.add_cost p.2) m) es).metrics,
           (runLoop extract (pre.foldl (fun acc p => acc.add_cost p.2) m) es).calls
             + pre.length⟩ := by
  intro pre
  induction pre with
  | nil => intro m es _; simp
  | cons p pre ih =>
    intro m es hpre
    have hp : extract p.1 = none := hpre p (List.mem_cons_self _ _)
    have hrest : ∀ q ∈ pre, extract q.1 = none :=
      fun q hq => hpre q (List.mem_cons_of_mem _ hq)
    simp only [List.map_cons, List.cons_append]
    rw [runLoop_success_none extract m p.1 p.2 _ hp, ih (m.add_cost p.2) es hrest]
    simp only [List.foldl_cons, List.length_cons, OpRun.mk.injEq]
    exact ⟨trivial, trivial, by omega⟩

/-- If the loop returns a value, the justification it returns contains a
recognized marker mapping to exactly that value: a malformed response is
never returned and no default is substituted. -/
lemma runLoop_sound {α : Type} (extract : String → Option α) :
    ∀ (es : List ProviderEvent) (m : ScreeningMetrics) (j : String) (w : α),
      (runLoop extract m es).outcome = OpOutcome.returned j w → extract j = some w := by
  intro es
  induction es with
  | nil => intro m j w h; exact absurd h (by simp [runLoop_nil])
  | cons e es ih =>
    intro m j w h
    cases e with
    | failure => exact absurd h (by simp [runLoop_failure_cons])
    | success t c =>
      cases hx : extract t with
      | some v =>
        rw [runLoop_success_some extract m t c es _ hx] at h
        obtain ⟨rfl, rfl⟩ : t = j ∧ v = w := by
          cases h; exact ⟨rfl, rfl⟩
        exact hx
      | none =>
        rw [runLoop_success_none extract m t c es hx] at h
        exact ih (m.add_cost c) j w h

/-- The transport retry loop consumes at most its retry budget, one attempt
per loop iteration. -/
lemma make_api_call_bounded (table : PricingTable) (model : String) :
    ∀ atts : List AttemptResult, (make_api_call table model atts).2 ≤ atts.length := by
  intro atts
  induction atts with
  | nil => simp [make_api_call]
  | cons a rest ih =>
    cases a with
    | ok t pt ct => simp [make_api_call]
    | err =>
      cases rest with
      | nil => simp [make_api_call]
      | cons b rest2 =>
        have h := ih
        simp only [make_api_call, List.length_cons] at h ⊢
        omega

/-! ### Claims -/

/-- Claim C1: the spec states that `total_disagreements` increases by one on
every `review` call returning Agreement=false. The source defines
`ScreeningMetrics.add_disagreement` but no operation ever calls it: a review
run that returns Agreement=false leaves the counter unchanged, as the
concrete run below shows, and in fact both review operations leave
`total_disagreements` untouched on every oracle. -/
theorem C1_disagreement_counter_never_incremented :
    (CitationClassifier.review_classification ScreeningMetrics.init
        [ProviderEvent.success "YYY disagree" 0]).outcome
      = OpOutcome.returned "YYY disagree" false ∧
    (CitationClassifier.review_classification ScreeningMetrics.init
        [ProviderEvent.success "YYY disagree" 0]).metrics.total_disagreements = 0 ∧
    (∀ (m : ScreeningMetrics) (es : List ProviderEvent),
      (CitationClassifier.review_classification m es).metrics.total_disagreements
        = m.total_disagreements) ∧
    (∀ (m : ScreeningMetrics) (es : List ProviderEvent),
      (DetailedScreener.review_screening m es).metrics.total_disagreements
        = m.total_disagreements) := by
  refine ⟨by decide, by decide, ?_, ?_⟩
  · intro m es; exact runLoop_total_disagreements reviewClassificationExtract es m
  · intro m es; exact runLoop_total_disagreements reviewScreeningExtract es m

/-- Claim C2: the spec states that `total_processed` counts completed
`classify` calls. The source defines `ScreeningMetrics.increment_processed`
but `classify` (and every other operation) never calls it: a classify call
that returns a decision leaves `total_processed` at 0, and `classify`
preserves `total_processed` on every oracle. -/
theorem C2_processed_counter_never_incremented :
    (CitationClassifier.classify ScreeningMetrics.init
        [ProviderEvent.success "XXX relevant" 2]).outcome
      = OpOutcome.returned "XXX relevant" "potentially relevant" ∧
    (CitationClassifier.classify ScreeningMetrics.init
        [ProviderEvent.success "XXX relevant" 2]).metrics.total_processed = 0 ∧
    (∀ (m : ScreeningMetrics) (es : List ProviderEvent),
      (CitationClassifier.classify m es).metrics.total_processed = m.total_processed) := by
  refine ⟨by decide, by decide, ?_⟩
  intro m es; exact runLoop_total_processed classifyExtract es m

/-- Claim C3: the detailed screener scans YYY before XXX in `screen`
(YYY → included, XXX → excluded) and XXX before YYY in `improve_screening`
(XXX → excluded, YYY → included); on a text with exactly one of the two
markers both operations return the same outcome, and on a text with both
markers `screen` returns included while `improve_screening` returns
excluded. -/
theorem C3_detailed_marker_asymmetry (t : String) (c : ℚ) (m : ScreeningMetrics)
    (es : List ProviderEvent) :
    (searchCI "YYY" t = true → searchCI "XXX" t = false →
      (DetailedScreener.screen m (ProviderEvent.success t c :: es)).outcome
          = OpOutcome.returned t "included" ∧
      (DetailedScreener.improve_screening m (ProviderEvent.success t c :: es)).outcome
          = OpOutcome.returned t "included") ∧
    (searchCI "XXX" t = true → searchCI "YYY" t = false →
      (DetailedScreener.screen m (ProviderEvent.success t c :: es)).outcome
          = OpOutcome.returned t "excluded" ∧
      (DetailedScreener.improve_screening m (ProviderEvent.success t c :: es)).outcome
          = OpOutcome.returned t "excluded") ∧
    (searchCI "YYY" t = true → searchCI "XXX" t = true →
      (DetailedScreener.screen m (ProviderEvent.success t c :: es)).outcome
          = OpOutcome.returned t "included" ∧
      (DetailedScreener.improve_screening m (ProviderEvent.success t c :: es)).outcome
          = OpOutcome.returned t "excluded") := by
  refine ⟨fun h1 h2 => ⟨?_, ?_⟩, fun h1 h2 => ⟨?_, ?_⟩, fun h1 h2 => ⟨?_, ?_⟩⟩
  · simp only [DetailedScreener.screen]
    rw [runLoop_success_some screenExtract m t c es "included" (by simp [screenExtract, h1])]
  · simp only [DetailedScreener.improve_screening]
    rw [runLoop_success_some improveScreeningExtract m t c es "included"
      (by simp [improveScreeningExtract, h1, h2])]
  · simp only [DetailedScreener.screen]
    rw [runLoop_success_some screenExtract m t c es "excluded" (by simp [screenExtract, h1, h2])]
  · simp only [DetailedScreener.improve_screening]
    rw [runLoop_success_some improveScreeningExtract m t c es "excluded"
      (by simp [improveScreeningExtract, h1])]
  · simp only [DetailedScreener.screen]
    rw [runLoop_success_some screenExtract m t c es "included" (by simp [screenExtract, h1])]
  · simp only [DetailedScreener.improve_screening]
    rw [runLoop_success_some improveScreeningExtract m t c es "excluded"
      (by simp [improveScreeningExtract, h2])]

/-- Witness for C3 at a response carrying both markers: `screen` includes,
`improve_screening` excludes. -/
theorem C3_detailed_marker_asymmetry_witness :
    (DetailedScreener.screen ScreeningMetrics.init
        [ProviderEvent.success "YYY but also XXX" 0]).outcome
      = OpOutcome.returned "YYY but also XXX" "included" ∧
    (DetailedScreener.improve_screening ScreeningMetrics.init
        [ProviderEvent.success "YYY but also XXX" 0]).outcome
      = OpOutcome.returned "YYY but also XXX" "excluded" :=
  (C3_detailed_marker_asymmetry "YYY but also XXX" 0 ScreeningMetrics.init []).2.2
    (by decide) (by decide)

/-- Claim C4: `classify` and `improve_classification` scan case-insensitively
in priority order XXX, YYY, ZZZ mapping to potentially relevant, uncertain
and likely irrelevant, regardless of surrounding text; a text with exactly
one marker yields the decision of that marker. -/
theorem C4_classifier_priority_order (t : String) (c : ℚ) (m : ScreeningMetrics)
    (es : List ProviderEvent) :
    (searchCI "XXX" t = true →
      (CitationClassifier.classify m (ProviderEvent.success t c :: es)).outcome
          = OpOutcome.returned t "potentially relevant" ∧
      (CitationClassifier.improve_classification m (ProviderEvent.success t c :: es)).outcome
          = OpOutcome.returned t "potentially relevant") ∧
    (searchCI "XXX" t = false → searchCI "YYY" t = true →
      (CitationClassifier.classify m (ProviderEvent.success t c :: es)).outcome
          = OpOutcome.returned t "uncertain" ∧
      (CitationClassifier.improve_classification m (ProviderEvent.success t c :: es)).outcome
          = OpOutcome.returned t "uncertain") ∧
    (searchCI "XXX" t = false → searchCI "YYY" t = false → searchCI "ZZZ" t = true →
      (CitationClassifier.classify m (ProviderEvent.success t c :: es)).outcome
          = OpOutcome.returned t "likely irrelevant" ∧
      (CitationClassifier.improve_classification m (ProviderEvent.success t c :: es)).outcome
          = OpOutcome.returned t "likely irrelevant") := by
  refine ⟨fun h1 => ⟨?_, ?_⟩, fun h1 h2 => ⟨?_, ?_⟩, fun h1 h2 h3 => ⟨?_, ?_⟩⟩
  · simp only [CitationClassifier.classify]
    rw [runLoop_success_some classifyExtract m t c es "potentially relevant" (by simp [classifyExtract, h1])]
  · simp only [CitationClassifier.improve_classification]
    rw [runLoop_success_some improveClassificationExtract m t c es "potentially relevant"
      (by simp [improveClassificationExtract, h1])]
  · simp only [CitationClassifier.classify]
    rw [runLoop_success_some classifyExtract m t c es "uncertain" (by simp [classifyExtract, h1, h2])]
  · simp only [CitationClassifier.improve_classification]
    rw [runLoop_success_some improveClassificationExtract m t c es "uncertain"
      (by simp [improveClassificationExtract, h1, h2])]
  · simp only [CitationClassifier.classify]
    rw [runLoop_success_some classifyExtract m t c es "likely irrelevant"
      (by simp [classifyExtract, h1, h2, h3])]
  · simp only [CitationClassifier.improve_classification]
    rw [runLoop_success_some improveClassificationExtract m t c es "likely irrelevant"
      (by simp [improveClassificationExtract, h1, h2, h3])]

/-- Witness for C4 at a lowercase response text, exhibiting the
case-insensitive match. -/
theorem C4_classifier_priority_order_witness :
    (CitationClassifier.classify ScreeningMetrics.init
        [ProviderEvent.success "xxx looks relevant" 0]).outcome
      = OpOutcome.returned "xxx looks relevant" "potentially relevant" ∧
    (CitationClassifier.improve_classification ScreeningMetrics.init
        [ProviderEvent.success "xxx looks relevant" 0]).outcome
      = OpOutcome.returned "xxx looks relevant" "potentially relevant" :=
  (C4_classifier_priority_order "xxx looks relevant" 0 ScreeningMetrics.init []).1
    (by decide)

/-- Claim C5: a marker-free response never yields a result and no default is
substituted: the loop re-invokes the provider with the same prompt, so one
malformed response followed by a well-formed one consumes exactly 2 provider
calls; and whenever the loop does return, the returned justification carries
a recognized marker mapping to the returned value. -/
theorem C5_malformed_output_retries {α : Type} (extract : String → Option α)
    (m : ScreeningMetrics) (t1 t2 : String) (c1 c2 : ℚ) (v : α)
    (h1 : extract t1 = none) (h2 : extract t2 = some v) :
    (runLoop extract m
        [ProviderEvent.success t1 c1, ProviderEvent.success t2 c2]).calls = 2 ∧
    (runLoop extract m
        [ProviderEvent.success t1 c1, ProviderEvent.success t2 c2]).outcome
      = OpOutcome.returned t2 v ∧
    (∀ (c : ℚ) (es : List ProviderEvent),
      (runLoop extract m (ProviderEvent.success t1 c :: es)).outcome
          = (runLoop extract (m.add_cost c) es).outcome ∧
      (runLoop extract m (ProviderEvent.success t1 c :: es)).calls
          = (runLoop extract (m.add_cost c) es).calls + 1) ∧
    (∀ (es : List ProviderEvent) (j : String) (w : α),
      (runLoop extract m es).outcome = OpOutcome.returned j w → extract j = some w) := by
  have e1 := runLoop_success_none extract m t1 c1 [ProviderEvent.success t2 c2] h1
  have e2 := runLoop_success_some extract (m.add_cost c1) t2 c2 [] v h2
  refine ⟨?_, ?_, ?_, ?_⟩
  · rw [e1, e2]
  · rw [e1, e2]
  · intro c es
    exact ⟨by rw [runLoop_success_none extract m t1 c es h1],
           by rw [runLoop_success_none extract m t1 c es h1]⟩
  · intro es j w h
    exact runLoop_sound extract es m j w h

/-- Witness for C5: the classifier chain on the malformed response
`unclear` followed by `XXX relevant` makes exactly 2 provider calls and
produces the well-formed decision. -/
theorem C5_malformed_output_retries_witness :
    (runLoop classifyExtract ScreeningMetrics.init
        [ProviderEvent.success "unclear" 1, ProviderEvent.success "XXX relevant" 1]).calls
      = 2 ∧
    (runLoop classifyExtract ScreeningMetrics.init
        [ProviderEvent.success "unclear" 1, ProviderEvent.success "XXX relevant" 1]).outcome
      = OpOutcome.returned "XXX relevant" "potentially relevant" :=
  ⟨(C5_malformed_output_retries classifyExtract ScreeningMetrics.init "unclear"
      "XXX relevant" 1 1 "potentially relevant" (by decide) (by decide)).1,
   (C5_malformed_output_retries classifyExtract ScreeningMetrics.init "unclear"
      "XXX relevant" 1 1 "potentially relevant" (by decide) (by decide)).2.1⟩

/-- Claim C7: when a provider call raises, the operation re-raises after
exactly the calls already made (the malformed retries plus the failing call,
nothing consumed beyond it) and produces no decision; bounded retries live
below, in the transport loop, which consumes at most its retry budget. -/
theorem C7_provider_failure_propagates {α : Type} (extract : String → Option α)
    (m : ScreeningMetrics) (pre : List (String × ℚ)) (es : List ProviderEvent)
    (table : PricingTable) (model : String) (atts : List AttemptResult)
    (hpre : ∀ p ∈ pre, extract p.1 = none) :
    (runLoop extract m
        (pre.map (fun p => ProviderEvent.success p.1 p.2)
          ++ ProviderEvent.failure :: es)).outcome
      = OpOutcome.raised ∧
    (runLoop extract m
        (pre.map (fun p => ProviderEvent.success p.1 p.2)
          ++ ProviderEvent.failure :: es)).calls
      = pre.length + 1 ∧
    (make_api_call table model atts).2 ≤ atts.length := by
  have h := runLoop_malformed_prefix extract pre m (ProviderEvent.failure :: es) hpre
  refine ⟨?_, ?_, make_api_call_bounded table model atts⟩
  · rw [h, runLoop_failure_cons]
  · rw [h, runLoop_failure_cons]
    show 1 + pre.length = pre.length + 1
    omega

/-- Witness for C7: one malformed retry, then the provider raises; the run
raises after exactly 2 calls and the later well-formed event is never
reached; the transport loop with budget 2 makes at most 2 attempts. -/
theorem C7_provider_failure_propagates_witness :
    (runLoop classifyExtract ScreeningMetrics.init
        (([("unclear", (1 : ℚ))].map (fun p => ProviderEvent.success p.1 p.2))
          ++ ProviderEvent.failure :: [ProviderEvent.success "XXX later" 1])).outcome
      = OpOutcome.raised ∧
    (runLoop classifyExtract ScreeningMetrics.init
        (([("unclear", (1 : ℚ))].map (fun p => ProviderEvent.success p.1 p.2))
          ++ ProviderEvent.failure :: [ProviderEvent.success "XXX later" 1])).calls
      = 2 ∧
    (make_api_call [] "gpt-4o-mini" [AttemptResult.err, AttemptResult.err]).2 ≤ 2 :=
  C7_provider_failure_propagates classifyExtract ScreeningMetrics.init
    [("unclear", (1 : ℚ))] [ProviderEvent.success "XXX later" 1]
    [] "gpt-4o-mini" [AttemptResult.err, AttemptResult.err]
    (by
      intro p hp
      rw [List.mem_singleton] at hp
      subst hp
      rfl)

/-- Claim C8: a model missing from the pricing table yields cost exactly 0
and no exception; the call still returns its response text normally. -/
theorem C8_missing_pricing_entry_zero_cost (table : PricingTable) (model : String)
    (pt ct : ℕ) (t : String) (rest : List AttemptResult)
    (h : List.lookup model table = none) :
    calculate_cost table model pt ct = 0 ∧
    make_api_call table model (AttemptResult.ok t pt ct :: rest)
      = (TransportResult.success t 0, 1) := by
  have hc : calculate_cost table model pt ct = 0 := by
    simp [calculate_cost, h]
  exact ⟨hc, by simp [make_api_call, hc]⟩

/-- Witness for C8 with an empty pricing table. -/
theorem C8_missing_pricing_entry_zero_cost_witness :
    calculate_cost [] "gpt-4o-mini" 100 50 = 0 ∧
    make_api_call [] "gpt-4o-mini" [AttemptResult.ok "All good XXX" 100 50]
      = (TransportResult.success "All good XXX" 0, 1) :=
  C8_missing_pricing_entry_zero_cost [] "gpt-4o-mini" 100 50 "All good XXX" [] (by rfl)

/-- Claim C9: when the provider raises, the metrics are exactly the state
reached before the failing attempt: the costs of the earlier successful
(malformed) calls of the same operation are in, the failing call contributes
nothing, and the disagreement and processed counters are as at the start. -/
theorem C9_metrics_atomic_on_raise {α : Type} (extract : String → Option α)
    (m : ScreeningMetrics) (pre : List (String × ℚ)) (es : List ProviderEvent)
    (hpre : ∀ p ∈ pre, extract p.1 = none) :
    (runLoop extract m
        (pre.map (fun p => ProviderEvent.success p.1 p.2)
          ++ ProviderEvent.failure :: es)).outcome
      = OpOutcome.raised ∧
    (runLoop extract m
        (pre.map (fun p => ProviderEvent.success p.1 p.2)
          ++ ProviderEvent.failure :: es)).metrics
      = (runLoop extract m (pre.map (fun p => ProviderEvent.success p.1 p.2))).metrics ∧
    (runLoop extract m
        (pre.map (fun p => ProviderEvent.success p.1 p.2)
          ++ ProviderEvent.failure :: es)).metrics
      = pre.foldl (fun acc p => acc.add_cost p.2) m ∧
    (runLoop extract m
        (pre.map (fun p => ProviderEvent.success p.1 p.2)
          ++ ProviderEvent.failure :: es)).metrics.total_disagreements
      = m.total_disagreements ∧
    (runLoop extract m
        (pre.map (fun p => ProviderEvent.success p.1 p.2)
          ++ ProviderEvent.failure :: es)).metrics.total_processed
      = m.total_processed := by
  have h1 := runLoop_malformed_prefix extract pre m (ProviderEvent.failure :: es) hpre
  have hm : (runLoop extract m
      (pre.map (fun p => ProviderEvent.success p.1 p.2)
        ++ ProviderEvent.failure :: es)).metrics
      = pre.foldl (fun acc p => acc.add_cost p.2) m := by
    rw [h1, runLoop_failure_cons]
  have h2 := runLoop_malformed_prefix extract pre m [] hpre
  rw [List.append_nil] at h2
  have hm2 : (runLoop extract m
      (pre.map (fun p => ProviderEvent.success p.1 p.2))).metrics
      = pre.foldl (fun acc p => acc.add_cost p.2) m := by
    rw [h2, runLoop_nil]
  refine ⟨?_, ?_, hm, ?_, ?_⟩
  · rw [h1, runLoop_failure_cons]
  · rw [hm, hm2]
  · rw [hm]; exact foldl_add_cost_disagreements pre m
  · rw [hm]; exact foldl_add_cost_processed pre m

/-- Witness for C9: one malformed retry then a raise; the metrics at the
raise are exactly the post-retry state and the counters are those of the
fresh metrics. -/
theorem C9_metrics_atomic_on_raise_witness :
    (runLoop classifyExtract ScreeningMetrics.init
        (([("unclear", (1 : ℚ))].map (fun p => ProviderEvent.success p.1 p.2))
          ++ ProviderEvent.failure :: [])).outcome
      = OpOutcome.raised ∧
    (runLoop classifyExtract ScreeningMetrics.init
        (([("unclear", (1 : ℚ))].map (fun p => ProviderEvent.success p.1 p.2))
          ++ ProviderEvent.failure :: [])).metrics
      = [("unclear", (1 : ℚ))].foldl (fun acc p => acc.add_cost p.2)
          ScreeningMetrics.init ∧
    (runLoop classifyExtract ScreeningMetrics.init
        (([("unclear", (1 : ℚ))].map (fun p => ProviderEvent.success p.1 p.2))
          ++ ProviderEvent.failure :: [])).metrics.total_disagreements
      = ScreeningMetrics.init.total_disagreements :=
  ⟨(C9_metrics_atomic_on_raise classifyExtract ScreeningMetrics.init
      [("unclear", (1 : ℚ))] []
      (by intro p hp; rw [List.mem_singleton] at hp; subst hp; rfl)).1,
   (C9_metrics_atomic_on_raise classifyExtract ScreeningMetrics.init
      [("unclear", (1 : ℚ))] []
      (by intro p hp; rw [List.mem_singleton] at hp; subst hp; rfl)).2.2.1,
   (C9_metrics_atomic_on_raise classifyExtract ScreeningMetrics.init
      [("unclear", (1 : ℚ))] []
      (by intro p hp; rw [List.mem_singleton] at hp; subst hp; rfl)).2.2.2.1⟩

/-- Claim C10: `get_summary` always produces a summary whose
`avg_cost_per_article` is `total_cost / max(total_processed, 1)`; the
divisor is never zero, and with zero processed articles the average equals
the total cost. -/
theorem C10_summary_avg_division_guard (m : ScreeningMetrics) :
    m.get_summary.avg_cost_per_article
      = m.total_cost / ((max m.total_processed 1 : ℕ) : ℚ) ∧
    ((max m.total_processed 1 : ℕ) : ℚ) ≠ 0 ∧
    (m.total_processed = 0 →
      m.get_summary.avg_cost_per_article = m.total_cost) := by
  refine ⟨rfl, ?_, ?_⟩
  · rw [Nat.cast_ne_zero]
    omega
  · intro h
    simp [ScreeningMetrics.get_summary, h]

/-- Witness for C10 at metrics with cost 5 and zero processed articles. -/
theorem C10_summary_avg_division_guard_witness :
    (⟨5, 3, 0⟩ : ScreeningMetrics).get_summary.avg_cost_per_article
      = (⟨5, 3, 0⟩ : ScreeningMetrics).total_cost :=
  (C10_summary_avg_division_guard ⟨5, 3, 0⟩).2.2 rfl

end Screening
